import Mathlib

/-!
Verification of the rigid-body abstraction layer of habitat-sim
(`src/esp/physics/RigidObject.h`): the `MotionType` / `RigidObjectType`
state machine, the kinematic transform-mutation API with its `syncPose`
synchronization hook, the `VelocityControl` constant-velocity integrator,
force/impulse no-ops, origin shifting, and the property accessors.

The header declares the contract and gives several inline bodies (the
zero-default property accessors, `getScale`, `getMotionType`); those are
embedded directly from the source.  The out-of-line implementation file is
not part of the sources, so the bodies of the initialization entry points,
`setMotionType`, the transform mutations, `syncPose`, `shiftOrigin`,
`integrateTransform`, the force/impulse/torque applications and
`resetTransformation` are modelled from the specification; each such
definition carries a doc comment starting with `Modelled from the spec:`.

Numeric quantities are embedded as exact rationals.  Quantities whose
construction needs real-valued trigonometry (the quaternion built from an
axis-angle pair, the incremental rotation of the angular branch of the
integrator) are taken as function parameters, so every theorem below holds
for every realization of those constructors.
-/

set_option autoImplicit false

namespace HabitatSim

/-- A 3D vector with exact rational components, standing for
`Magnum::Vector3`. -/
structure Vec3 where
  x : ℚ
  y : ℚ
  z : ℚ
deriving DecidableEq, Repr

def Vec3.add (a b : Vec3) : Vec3 := ⟨a.x + b.x, a.y + b.y, a.z + b.z⟩

def Vec3.neg (a : Vec3) : Vec3 := ⟨-a.x, -a.y, -a.z⟩

/-- Scalar multiple, standing for `v * c` on `Magnum::Vector3`. -/
def Vec3.smul (c : ℚ) (a : Vec3) : Vec3 := ⟨c * a.x, c * a.y, c * a.z⟩

def Vec3.zero : Vec3 := ⟨0, 0, 0⟩

instance : Add Vec3 := ⟨Vec3.add⟩

theorem Vec3.add_def (a b : Vec3) : a + b = ⟨a.x + b.x, a.y + b.y, a.z + b.z⟩ := rfl

theorem Vec3.add_zero_right (a : Vec3) : a + Vec3.zero = a := by
  cases a
  simp [Vec3.add_def, Vec3.zero]

theorem Vec3.neg_zero_eq : Vec3.zero.neg = Vec3.zero := by
  simp [Vec3.neg, Vec3.zero]

/-- A quaternion with exact rational components, standing for
`Magnum::Quaternion` (used for the rotation part of an object transform). -/
structure Quat where
  r : ℚ
  i : ℚ
  j : ℚ
  k : ℚ
deriving DecidableEq, Repr

/-- Hamilton product of two quaternions. -/
def Quat.mul (a b : Quat) : Quat :=
  ⟨a.r * b.r - a.i * b.i - a.j * b.j - a.k * b.k,
   a.r * b.i + a.i * b.r + a.j * b.k - a.k * b.j,
   a.r * b.j - a.i * b.k + a.j * b.r + a.k * b.i,
   a.r * b.k + a.i * b.j - a.j * b.i + a.k * b.r⟩

def Quat.conj (a : Quat) : Quat := ⟨a.r, -a.i, -a.j, -a.k⟩

/-- The identity quaternion (identity rotation). -/
def Quat.one : Quat := ⟨1, 0, 0, 0⟩

/-- Rotate a vector by a quaternion: the vector part of `q * (0, v) * conj q`. -/
def Quat.rotateVec (q : Quat) (v : Vec3) : Vec3 :=
  let p := q.mul ((Quat.mk 0 v.x v.y v.z).mul q.conj)
  ⟨p.i, p.j, p.k⟩

/-- A 3x3 matrix as three rows, standing for `Magnum::Matrix3`. -/
structure Mat3 where
  row0 : Vec3
  row1 : Vec3
  row2 : Vec3
deriving DecidableEq, Repr

def Mat3.zero : Mat3 := ⟨Vec3.zero, Vec3.zero, Vec3.zero⟩

/-- One collision mesh buffer, standing for `assets::CollisionMeshData`.
The core treats the mesh data as an opaque read-only input; only the mesh
positions are recorded here. -/
structure CollisionMeshData where
  positions : List Vec3
deriving DecidableEq, Repr

/-- The immutable configuration template captured at initialization time,
standing for `assets::PhysicsObjectAttributes` (physical parameters: mass,
friction, restitution, damping, scale, center of mass, inertia). -/
structure PhysicsObjectAttributes where
  scale : Vec3
  mass : ℚ
  frictionCoefficient : ℚ
  restitutionCoefficient : ℚ
  linearDamping : ℚ
  angularDamping : ℚ
  COM : Vec3
  inertia : Vec3
deriving DecidableEq, Repr

/-- Template accessor used by `RigidObject::getScale`. -/
def PhysicsObjectAttributes.getScale (a : PhysicsObjectAttributes) : Vec3 := a.scale

/-- `esp::physics::MotionType` (RigidObject.h, lines 37-63). -/
inductive MotionType where
  | ERROR_MOTIONTYPE
  | STATIC
  | KINEMATIC
  | DYNAMIC
deriving DecidableEq, Repr

/-- `esp::physics::RigidObjectType` (RigidObject.h, lines 69-88).
`NONE` marks an uninitialized object. -/
inductive RigidObjectType where
  | NONE
  | SCENE
  | OBJECT
deriving DecidableEq, Repr

/-- Capabilities of an attached dynamics backend, the third input of the
category/motion-type policy table of the spec.  `supportsDynamic` means a
backend capable of true dynamics is attached; `supportsStaticObject` means
the backend supports freezing an `OBJECT` body as static. -/
structure DynamicsBackendCaps where
  supportsDynamic : Bool
  supportsStaticObject : Bool
deriving DecidableEq, Repr

/-- The base `RigidObject` has no dynamics backend attached. -/
def noBackend : DynamicsBackendCaps := ⟨false, false⟩

/-- The observable state of one `esp::physics::RigidObject`:
`objectMotionType_` and `rigidObjectType_` (header lines 591, 596),
`initializationAttributes_` (line 601, a possibly-null shared pointer
embedded as an `Option`), the attached scene-node transform
(`translation`, `rotation`), the pose most recently pushed to a backend by
the `syncPose` hook (`syncedPose`, `none` until the first synchronization),
the translations of the children of the attached node (`childTranslations`,
used by origin shifting) and the cumulative bounding box of the geometry
(`bbMin`, `bbMax`). -/
structure RigidObject where
  objectMotionType : MotionType
  rigidObjectType : RigidObjectType
  initializationAttributes : Option PhysicsObjectAttributes
  translation : Vec3
  rotation : Quat
  syncedPose : Option (Vec3 × Quat)
  childTranslations : List Vec3
  bbMin : Vec3
  bbMax : Vec3
deriving DecidableEq, Repr

/-- Modelled from the spec: the `RigidObject` constructor (its body is not
under the sources).  A body is created attached to an externally-owned
node, with `rigidObjectType_ = NONE` (the header default, line 596), a null
`initializationAttributes_`, and no synchronization performed yet.  The
header gives `objectMotionType_` no default initializer and the spec fixes
no initial motion type, so it is a parameter. -/
def mkRigidObject (mt0 : MotionType) (t0 : Vec3) (r0 : Quat)
    (children0 : List Vec3) (bbMin0 bbMax0 : Vec3) : RigidObject :=
  ⟨mt0, RigidObjectType.NONE, none, t0, r0, none, children0, bbMin0, bbMax0⟩

/-- `RigidObject::getMotionType` (header inline, line 237). -/
def RigidObject.getMotionType (s : RigidObject) : MotionType := s.objectMotionType

/-- `RigidObject::getMass` (header inline, line 455): base default `0.0`. -/
def RigidObject.getMass (_ : RigidObject) : ℚ := 0

/-- `RigidObject::getScale` (header inline, lines 460-462):
`return initializationAttributes_->getScale();`.  The body dereferences
the template pointer unconditionally; when `initializationAttributes_` is
null (no initialization has succeeded) this is a null-pointer dereference,
embedded here as `none`.  When a template is present the recorded scale is
returned. -/
def RigidObject.getScale (s : RigidObject) : Option Vec3 :=
  s.initializationAttributes.map PhysicsObjectAttributes.getScale

/-- `RigidObject::getFrictionCoefficient` (header inline, line 468). -/
def RigidObject.getFrictionCoefficient (_ : RigidObject) : ℚ := 0

/-- `RigidObject::getRestitutionCoefficient` (header inline, line 474). -/
def RigidObject.getRestitutionCoefficient (_ : RigidObject) : ℚ := 0

/-- `RigidObject::getLinearDamping` (header inline, line 480). -/
def RigidObject.getLinearDamping (_ : RigidObject) : ℚ := 0

/-- `RigidObject::getAngularDamping` (header inline, line 486). -/
def RigidObject.getAngularDamping (_ : RigidObject) : ℚ := 0

/-- `RigidObject::getLinearVelocity` (header inline, lines 324-326):
returns the zero vector for base bodies. -/
def RigidObject.getLinearVelocity (_ : RigidObject) : Vec3 := Vec3.zero

/-- `RigidObject::getAngularVelocity` (header inline, lines 335-337):
returns the zero vector for base bodies. -/
def RigidObject.getAngularVelocity (_ : RigidObject) : Vec3 := Vec3.zero

/-- Modelled from the spec: `RigidObject::getCOM` (declared at line 492,
body not under the sources).  Base property accessor defaults are zero. -/
def RigidObject.getCOM (_ : RigidObject) : Vec3 := Vec3.zero

/-- Modelled from the spec: `RigidObject::getInertiaVector` (declared at
line 500, body not under the sources).  Base defaults are zero. -/
def RigidObject.getInertiaVector (_ : RigidObject) : Vec3 := Vec3.zero

/-- Modelled from the spec: `RigidObject::getInertiaMatrix` (declared at
line 507, body not under the sources).  Base defaults are zero. -/
def RigidObject.getInertiaMatrix (_ : RigidObject) : Mat3 := Mat3.zero

/-- The scene-visible transform of the attached node, as read by the
generic accessor. -/
def RigidObject.getTransformation (s : RigidObject) : Vec3 × Quat :=
  (s.translation, s.rotation)

/-- Modelled from the spec: `RigidObject::syncPose` (declared at line 639,
body not under the sources).  The hook reconciles the simulated state a
backend holds with the scene-visible transform, so that the two never
diverge across a rendering boundary; it is called automatically on
kinematic updates and is a no-op on the visible state in the base case.
The pose the hook hands to the backend is recorded in `syncedPose`. -/
def RigidObject.syncPose (s : RigidObject) : RigidObject :=
  { s with syncedPose := some (s.translation, s.rotation) }

/-- Modelled from the spec: `RigidObject::setTransformation` (declared at
line 350, body not under the sources).  Sets the transform of the attached
node kinematically, then invokes the synchronization hook. -/
def RigidObject.setTransformation (s : RigidObject) (t : Vec3) (r : Quat) :
    RigidObject :=
  ({ s with translation := t, rotation := r }).syncPose

/-- Modelled from the spec: `RigidObject::setTranslation` (declared at
line 357, body not under the sources). -/
def RigidObject.setTranslation (s : RigidObject) (v : Vec3) : RigidObject :=
  ({ s with translation := v }).syncPose

/-- Modelled from the spec: `RigidObject::setRotation` (declared at line
364, body not under the sources). -/
def RigidObject.setRotation (s : RigidObject) (q : Quat) : RigidObject :=
  ({ s with rotation := q }).syncPose

/-- Modelled from the spec: `RigidObject::translate` (declared at line 376,
body not under the sources).  Relative translation in the world frame. -/
def RigidObject.translate (s : RigidObject) (v : Vec3) : RigidObject :=
  ({ s with translation := s.translation + v }).syncPose

/-- Modelled from the spec: `RigidObject::translateLocal` (declared at line
384, body not under the sources).  The vector is given in the local frame
of the object and is rotated into the world frame by the current
orientation before being added. -/
def RigidObject.translateLocal (s : RigidObject) (v : Vec3) : RigidObject :=
  ({ s with translation := s.translation + s.rotation.rotateVec v }).syncPose

/-- Modelled from the spec: `RigidObject::rotate` (declared at line 392,
body not under the sources).  Axis-angle rotation in the world frame.
`aaq` is the quaternion constructor from an angle and a normalized axis
(real-valued trigonometry, taken as a parameter). -/
def RigidObject.rotate (s : RigidObject) (aaq : ℚ → Vec3 → Quat)
    (angleInRad : ℚ) (normalizedAxis : Vec3) : RigidObject :=
  ({ s with rotation := (aaq angleInRad normalizedAxis).mul s.rotation }).syncPose

/-- Modelled from the spec: `RigidObject::rotateLocal` (declared at line
402, body not under the sources).  Axis-angle rotation in the local
frame. -/
def RigidObject.rotateLocal (s : RigidObject) (aaq : ℚ → Vec3 → Quat)
    (angleInRad : ℚ) (normalizedAxis : Vec3) : RigidObject :=
  ({ s with rotation := s.rotation.mul (aaq angleInRad normalizedAxis) }).syncPose

def Vec3.unitX : Vec3 := ⟨1, 0, 0⟩

def Vec3.unitY : Vec3 := ⟨0, 1, 0⟩

def Vec3.unitZ : Vec3 := ⟨0, 0, 1⟩

/-- Modelled from the spec: `RigidObject::rotateX` (declared at line 410),
rotation about the global X axis. -/
def RigidObject.rotateX (s : RigidObject) (aaq : ℚ → Vec3 → Quat)
    (angleInRad : ℚ) : RigidObject :=
  s.rotate aaq angleInRad Vec3.unitX

/-- Modelled from the spec: `RigidObject::rotateY` (declared at line 417),
rotation about the global Y axis. -/
def RigidObject.rotateY (s : RigidObject) (aaq : ℚ → Vec3 → Quat)
    (angleInRad : ℚ) : RigidObject :=
  s.rotate aaq angleInRad Vec3.unitY

/-- Modelled from the spec: `RigidObject::rotateZ` (declared at line 424),
rotation about the global Z axis. -/
def RigidObject.rotateZ (s : RigidObject) (aaq : ℚ → Vec3 → Quat)
    (angleInRad : ℚ) : RigidObject :=
  s.rotate aaq angleInRad Vec3.unitZ

/-- Modelled from the spec: `RigidObject::rotateXLocal` (declared at line
431), rotation about the local X axis. -/
def RigidObject.rotateXLocal (s : RigidObject) (aaq : ℚ → Vec3 → Quat)
    (angleInRad : ℚ) : RigidObject :=
  s.rotateLocal aaq angleInRad Vec3.unitX

/-- Modelled from the spec: `RigidObject::rotateYLocal` (declared at line
438), rotation about the local Y axis. -/
def RigidObject.rotateYLocal (s : RigidObject) (aaq : ℚ → Vec3 → Quat)
    (angleInRad : ℚ) : RigidObject :=
  s.rotateLocal aaq angleInRad Vec3.unitY

/-- Modelled from the spec: `RigidObject::rotateZLocal` (declared at line
445), rotation about the local Z axis. -/
def RigidObject.rotateZLocal (s : RigidObject) (aaq : ℚ → Vec3 → Quat)
    (angleInRad : ℚ) : RigidObject :=
  s.rotateLocal aaq angleInRad Vec3.unitZ

/-- Modelled from the spec: `RigidObject::resetTransformation` (declared at
line 369, body not under the sources; the header marks it NOT IMPLEMENTED).
The spec requires the unimplemented extension point to fail loudly rather
than silently do nothing, with every fallible operation reporting failure
through an explicit success indicator and never through an exception; the
observable failure signal is the `false` component of the result, and the
body state is unchanged. -/
def RigidObject.resetTransformation (s : RigidObject) : RigidObject × Bool :=
  (s, false)

/-- Modelled from the spec: `bool RigidObject::initializeScene` (declared
at lines 183-186, body not under the sources).  Valid only from an
uninitialized body; fails with no state change when the body is already
initialized or the collision-mesh group is empty; on success commits
`rigidObjectType_ = SCENE`, `objectMotionType_ = STATIC` and stores the
template, then runs the overridable finalize hook (`initializeSceneFinalize`,
whose verdict is the parameter `finalizeOk`); a failing hook rolls the whole
initialization back.  The resource manager argument is an opaque
collaborator and is not modelled. -/
def RigidObject.initializeScene (s : RigidObject)
    (physicsSceneAttributes : PhysicsObjectAttributes)
    (meshGroup : List CollisionMeshData) (finalizeOk : Bool) :
    Bool × RigidObject :=
  if s.rigidObjectType = RigidObjectType.NONE then
    if meshGroup.isEmpty then (false, s)
    else if finalizeOk then
      (true, { s with rigidObjectType := RigidObjectType.SCENE,
                      objectMotionType := MotionType.STATIC,
                      initializationAttributes := some physicsSceneAttributes })
    else (false, s)
  else (false, s)

/-- Modelled from the spec: `bool RigidObject::initializeObject` (declared
at lines 197-200, body not under the sources).  Same failure conditions as
the scene entry point; on success commits `rigidObjectType_ = OBJECT` with
default `objectMotionType_ = KINEMATIC` (no backend) and stores the
template; a failing finalize hook (`initializeObjectFinalize`, verdict
`finalizeOk`) rolls everything back. -/
def RigidObject.initializeObject (s : RigidObject)
    (physicsObjectAttributes : PhysicsObjectAttributes)
    (meshGroup : List CollisionMeshData) (finalizeOk : Bool) :
    Bool × RigidObject :=
  if s.rigidObjectType = RigidObjectType.NONE then
    if meshGroup.isEmpty then (false, s)
    else if finalizeOk then
      (true, { s with rigidObjectType := RigidObjectType.OBJECT,
                      objectMotionType := MotionType.KINEMATIC,
                      initializationAttributes := some physicsObjectAttributes })
    else (false, s)
  else (false, s)

/-- Modelled from the spec: `bool RigidObject::setMotionType` (declared at
line 231, body not under the sources).  The category/motion-type policy
table: a SCENE body accepts only STATIC; an OBJECT body always accepts
KINEMATIC, accepts DYNAMIC only when a backend capable of true dynamics is
attached, and accepts STATIC only when the backend supports freezing;
ERROR_MOTIONTYPE is never a settable target; on an uninitialized body the
call fails.  Every rejected request leaves the state unchanged. -/
def RigidObject.setMotionType (s : RigidObject) (caps : DynamicsBackendCaps)
    (mt : MotionType) : Bool × RigidObject :=
  match s.rigidObjectType, mt with
  | RigidObjectType.NONE, _ => (false, s)
  | RigidObjectType.SCENE, MotionType.STATIC =>
    (true, { s with objectMotionType := MotionType.STATIC })
  | RigidObjectType.SCENE, MotionType.ERROR_MOTIONTYPE => (false, s)
  | RigidObjectType.SCENE, MotionType.KINEMATIC => (false, s)
  | RigidObjectType.SCENE, MotionType.DYNAMIC => (false, s)
  | RigidObjectType.OBJECT, MotionType.KINEMATIC =>
    (true, { s with objectMotionType := MotionType.KINEMATIC })
  | RigidObjectType.OBJECT, MotionType.DYNAMIC =>
    if caps.supportsDynamic then
      (true, { s with objectMotionType := MotionType.DYNAMIC })
    else (false, s)
  | RigidObjectType.OBJECT, MotionType.STATIC =>
    if caps.supportsStaticObject then
      (true, { s with objectMotionType := MotionType.STATIC })
    else (false, s)
  | RigidObjectType.OBJECT, MotionType.ERROR_MOTIONTYPE => (false, s)

/-- Modelled from the spec: `RigidObject::applyForce` (declared at lines
261-262, body not under the sources).  Forces are applied only through a
derived dynamics implementation; the base implementation does nothing (a
silent no-op for STATIC and KINEMATIC bodies, by design). -/
def RigidObject.applyForce (s : RigidObject) (_force _relPos : Vec3) :
    RigidObject :=
  s

/-- Modelled from the spec: `RigidObject::applyImpulse` (declared at lines
274-275, body not under the sources).  Base implementation does nothing. -/
def RigidObject.applyImpulse (s : RigidObject) (_impulse _relPos : Vec3) :
    RigidObject :=
  s

/-- Modelled from the spec: `RigidObject::applyTorque` (declared at line
284, body not under the sources).  Base implementation does nothing. -/
def RigidObject.applyTorque (s : RigidObject) (_torque : Vec3) : RigidObject :=
  s

/-- Modelled from the spec: `RigidObject::applyImpulseTorque` (declared at
line 294, body not under the sources).  Base implementation does nothing. -/
def RigidObject.applyImpulseTorque (s : RigidObject) (_impulse : Vec3) :
    RigidObject :=
  s

/-- Modelled from the spec: `RigidObject::shiftOrigin` (declared at line
244, body not under the sources).  Translates every child of the attached
node by `shift` without changing the placement of the body itself;
translating the whole child geometry translates its cumulative bounding box
by the same shift, so `bbMin` and `bbMax` move along. -/
def RigidObject.shiftOrigin (s : RigidObject) (shift : Vec3) : RigidObject :=
  { s with childTranslations := s.childTranslations.map (fun c => c + shift),
           bbMin := s.bbMin + shift,
           bbMax := s.bbMax + shift }

/-- Center of the cumulative bounding box `cumulativeBB_` of the attached
node. -/
def RigidObject.bbCenter (s : RigidObject) : Vec3 :=
  Vec3.smul (1 / 2) (s.bbMin + s.bbMax)

/-- Modelled from the spec: `RigidObject::shiftOriginToBBCenter` (declared
at line 250, body not under the sources).  Computes the aggregate
bounding-box center of the current geometry and calls `shiftOrigin` on its
negation. -/
def RigidObject.shiftOriginToBBCenter (s : RigidObject) : RigidObject :=
  s.shiftOrigin s.bbCenter.neg

/-- The `VelocityControl` struct (header lines 92-133): constant linear and
angular control velocities with flags gating whether each component is
applied and whether it is given in the local frame. -/
structure VelocityControl where
  linVel : Vec3
  angVel : Vec3
  controllingLinVel : Bool
  linVelIsLocal : Bool
  controllingAngVel : Bool
  angVelIsLocal : Bool
deriving DecidableEq, Repr

/-- Modelled from the spec: `VelocityControl::integrateTransform` (declared
at lines 128-130, body not under the sources).  Explicit Euler update: when
`controllingLinVel`, the displacement `linVel * dt` is added to the
translation, rotated into the world frame first when `linVelIsLocal`; when
`controllingAngVel`, an incremental rotation computed from
`angVel` and `dt` (axis the normalized angular velocity, angle its norm
times `dt`) is composed with the orientation, on the local side when
`angVelIsLocal` and on the world side otherwise.  The constructor of the
incremental quaternion needs axis normalization and half-angle
trigonometry, which have no exact rational form, so it is the parameter
`angInc`; every theorem below holds for every realization of it. -/
def VelocityControl.integrateTransform (vc : VelocityControl)
    (angInc : Vec3 → ℚ → Quat) (dt : ℚ) (objectTransform : Vec3 × Quat) :
    Vec3 × Quat :=
  let newTranslation :=
    if vc.controllingLinVel then
      if vc.linVelIsLocal then
        objectTransform.1 + objectTransform.2.rotateVec (Vec3.smul dt vc.linVel)
      else
        objectTransform.1 + Vec3.smul dt vc.linVel
    else objectTransform.1
  let newRotation :=
    if vc.controllingAngVel then
      let q := angInc vc.angVel dt
      if vc.angVelIsLocal then objectTransform.2.mul q else q.mul objectTransform.2
    else objectTransform.2
  (newTranslation, newRotation)

/-- One call of the public mutating API of a body, used to describe the
reachable states after initialization. -/
inductive Op where
  | opInitializeScene (attrs : PhysicsObjectAttributes)
      (meshGroup : List CollisionMeshData) (finalizeOk : Bool)
  | opInitializeObject (attrs : PhysicsObjectAttributes)
      (meshGroup : List CollisionMeshData) (finalizeOk : Bool)
  | opSetMotionType (caps : DynamicsBackendCaps) (mt : MotionType)
  | opSetTransformation (t : Vec3) (r : Quat)
  | opSetTranslation (v : Vec3)
  | opSetRotation (q : Quat)
  | opTranslate (v : Vec3)
  | opTranslateLocal (v : Vec3)
  | opRotate (angle : ℚ) (axis : Vec3)
  | opRotateLocal (angle : ℚ) (axis : Vec3)
  | opRotateX (angle : ℚ)
  | opRotateY (angle : ℚ)
  | opRotateZ (angle : ℚ)
  | opRotateXLocal (angle : ℚ)
  | opRotateYLocal (angle : ℚ)
  | opRotateZLocal (angle : ℚ)
  | opApplyForce (force relPos : Vec3)
  | opApplyImpulse (impulse relPos : Vec3)
  | opApplyTorque (torque : Vec3)
  | opApplyImpulseTorque (impulse : Vec3)
  | opShiftOrigin (shift : Vec3)
  | opShiftOriginToBBCenter
  | opResetTransformation

/-- The state reached by one API call (boolean results discarded). -/
def step (aaq : ℚ → Vec3 → Quat) (s : RigidObject) : Op → RigidObject
  | Op.opInitializeScene a m f => (s.initializeScene a m f).2
  | Op.opInitializeObject a m f => (s.initializeObject a m f).2
  | Op.opSetMotionType caps mt => (s.setMotionType caps mt).2
  | Op.opSetTransformation t r => s.setTransformation t r
  | Op.opSetTranslation v => s.setTranslation v
  | Op.opSetRotation q => s.setRotation q
  | Op.opTranslate v => s.translate v
  | Op.opTranslateLocal v => s.translateLocal v
  | Op.opRotate angle axis => s.rotate aaq angle axis
  | Op.opRotateLocal angle axis => s.rotateLocal aaq angle axis
  | Op.opRotateX angle => s.rotateX aaq angle
  | Op.opRotateY angle => s.rotateY aaq angle
  | Op.opRotateZ angle => s.rotateZ aaq angle
  | Op.opRotateXLocal angle => s.rotateXLocal aaq angle
  | Op.opRotateYLocal angle => s.rotateYLocal aaq angle
  | Op.opRotateZLocal angle => s.rotateZLocal aaq angle
  | Op.opApplyForce force relPos => s.applyForce force relPos
  | Op.opApplyImpulse impulse relPos => s.applyImpulse impulse relPos
  | Op.opApplyTorque torque => s.applyTorque torque
  | Op.opApplyImpulseTorque impulse => s.applyImpulseTorque impulse
  | Op.opShiftOrigin shift => s.shiftOrigin shift
  | Op.opShiftOriginToBBCenter => s.shiftOriginToBBCenter
  | Op.opResetTransformation => (s.resetTransformation).1

/-- The state reached after a sequence of API calls. -/
def run (aaq : ℚ → Vec3 → Quat) (s : RigidObject) : List Op → RigidObject
  | [] => s
  | op :: rest => run aaq (step aaq s op) rest

/-! Concrete sample bodies used by the witness theorems. -/

def attrsSample : PhysicsObjectAttributes :=
  ⟨⟨2, 2, 2⟩, 1, 1, 1, 0, 0, Vec3.zero, Vec3.zero⟩

def meshSample : CollisionMeshData := ⟨[Vec3.zero, Vec3.unitX]⟩

def freshSample : RigidObject :=
  mkRigidObject MotionType.KINEMATIC Vec3.zero Quat.one [Vec3.zero]
    ⟨-1, -1, -1⟩ ⟨3, 1, 1⟩

def sceneSample : RigidObject :=
  (freshSample.initializeScene attrsSample [meshSample] true).2

def objectSample : RigidObject :=
  (freshSample.initializeObject attrsSample [meshSample] true).2

def aaqSample : ℚ → Vec3 → Quat := fun _ _ => Quat.one

def opsSample : List Op :=
  [Op.opTranslate Vec3.unitX,
   Op.opSetMotionType noBackend MotionType.DYNAMIC,
   Op.opInitializeObject attrsSample [meshSample] true,
   Op.opShiftOriginToBBCenter,
   Op.opRotateX 1,
   Op.opApplyForce Vec3.unitX Vec3.zero,
   Op.opResetTransformation]

/-- Updating the motion type to the value it already has is the identity. -/
theorem motionTypeUpdateSelf (s : RigidObject) (mt : MotionType)
    (hm : s.objectMotionType = mt) :
    { s with objectMotionType := mt } = s := by
  cases s with
  | mk omt rot ia tr ro sp cs bmin bmax =>
    obtain rfl : omt = mt := hm
    rfl

/-- One API call keeps a SCENE body with STATIC motion type in that state. -/
theorem step_preserves_scene_static (aaq : ℚ → Vec3 → Quat) (s : RigidObject)
    (op : Op)
    (hc : s.rigidObjectType = RigidObjectType.SCENE)
    (hm : s.objectMotionType = MotionType.STATIC) :
    (step aaq s op).rigidObjectType = RigidObjectType.SCENE ∧
    (step aaq s op).objectMotionType = MotionType.STATIC := by
  cases op with
  | opSetMotionType caps mt =>
    cases mt <;> simp [step, RigidObject.setMotionType, hc, hm]
  | _ =>
    simp [step, RigidObject.initializeScene, RigidObject.initializeObject,
      RigidObject.setTransformation, RigidObject.setTranslation,
      RigidObject.setRotation, RigidObject.translate, RigidObject.translateLocal,
      RigidObject.rotate, RigidObject.rotateLocal, RigidObject.rotateX,
      RigidObject.rotateY, RigidObject.rotateZ, RigidObject.rotateXLocal,
      RigidObject.rotateYLocal, RigidObject.rotateZLocal, RigidObject.applyForce,
      RigidObject.applyImpulse, RigidObject.applyTorque,
      RigidObject.applyImpulseTorque, RigidObject.shiftOrigin,
      RigidObject.shiftOriginToBBCenter, RigidObject.resetTransformation,
      RigidObject.syncPose, hc, hm]

/-- A SCENE body with STATIC motion type keeps both through any sequence of
API calls. -/
theorem run_preserves_scene_static (aaq : ℚ → Vec3 → Quat) (ops : List Op) :
    ∀ s : RigidObject,
      s.rigidObjectType = RigidObjectType.SCENE →
      s.objectMotionType = MotionType.STATIC →
      (run aaq s ops).rigidObjectType = RigidObjectType.SCENE ∧
      (run aaq s ops).objectMotionType = MotionType.STATIC := by
  induction ops with
  | nil =>
    intro s hc hm
    exact ⟨hc, hm⟩
  | cons op rest ih =>
    intro s hc hm
    have h := step_preserves_scene_static aaq s op hc hm
    simpa [run] using ih (step aaq s op) h.1 h.2

/-- C1: For every RigidObject whose category is already SCENE or OBJECT,
any further call to initializeScene or initializeObject returns false and
leaves the category and all other body state unchanged; initialization
succeeds at most once per instance. -/
theorem initialize_one_shot (s : RigidObject)
    (a1 a2 : PhysicsObjectAttributes) (m1 m2 : List CollisionMeshData)
    (f1 f2 : Bool)
    (h : s.rigidObjectType = RigidObjectType.SCENE ∨
         s.rigidObjectType = RigidObjectType.OBJECT) :
    s.initializeScene a1 m1 f1 = (false, s) ∧
    s.initializeObject a2 m2 f2 = (false, s) := by
  rcases h with h | h <;>
    simp [RigidObject.initializeScene, RigidObject.initializeObject, h]

/-- Witness for C1 at an already-initialized scene body. -/
theorem initialize_one_shot_witness :
    sceneSample.initializeScene attrsSample [meshSample] true =
      (false, sceneSample) ∧
    sceneSample.initializeObject attrsSample [meshSample] true =
      (false, sceneSample) :=
  initialize_one_shot sceneSample attrsSample attrsSample [meshSample]
    [meshSample] true true (Or.inl (by decide))

/-- C2: For every body with category SCENE, setMotionType STATIC returns
true, setMotionType with any other argument returns false, in both cases
the state (hence the motion type) is unchanged, and category SCENE with
motion type STATIC persists through every reachable state after
initialization. -/
theorem scene_motion_type_locked (s : RigidObject)
    (caps : DynamicsBackendCaps) (mt : MotionType)
    (aaq : ℚ → Vec3 → Quat) (ops : List Op)
    (hc : s.rigidObjectType = RigidObjectType.SCENE)
    (hm : s.objectMotionType = MotionType.STATIC)
    (hmt : mt ≠ MotionType.STATIC) :
    s.setMotionType caps MotionType.STATIC = (true, s) ∧
    s.setMotionType caps mt = (false, s) ∧
    (run aaq s ops).rigidObjectType = RigidObjectType.SCENE ∧
    (run aaq s ops).objectMotionType = MotionType.STATIC := by
  have hrun := run_preserves_scene_static aaq ops s hc hm
  refine ⟨?_, ?_, hrun.1, hrun.2⟩
  · have h1 : s.setMotionType caps MotionType.STATIC =
        (true, { s with objectMotionType := MotionType.STATIC }) := by
      simp [RigidObject.setMotionType, hc]
    rw [h1, motionTypeUpdateSelf s MotionType.STATIC hm]
  · cases mt with
    | STATIC => exact absurd rfl hmt
    | _ => simp [RigidObject.setMotionType, hc]

/-- Witness for C2 at a concrete scene body, a DYNAMIC request and a
concrete call sequence. -/
theorem scene_motion_type_locked_witness :
    sceneSample.setMotionType noBackend MotionType.STATIC =
      (true, sceneSample) ∧
    sceneSample.setMotionType noBackend MotionType.DYNAMIC =
      (false, sceneSample) ∧
    (run aaqSample sceneSample opsSample).rigidObjectType =
      RigidObjectType.SCENE ∧
    (run aaqSample sceneSample opsSample).objectMotionType =
      MotionType.STATIC :=
  scene_motion_type_locked sceneSample noBackend MotionType.DYNAMIC
    aaqSample opsSample (by decide) (by decide) (by decide)

/-- C3: For every base RigidObject (no dynamics backend attached) whose
category is OBJECT and whose motion type is the KINEMATIC default,
setMotionType DYNAMIC returns false and the motion type remains KINEMATIC,
while setMotionType KINEMATIC returns true. -/
theorem object_dynamic_requires_backend (s : RigidObject)
    (hc : s.rigidObjectType = RigidObjectType.OBJECT)
    (hm : s.objectMotionType = MotionType.KINEMATIC) :
    s.setMotionType noBackend MotionType.DYNAMIC = (false, s) ∧
    (s.setMotionType noBackend MotionType.DYNAMIC).2.objectMotionType =
      MotionType.KINEMATIC ∧
    s.setMotionType noBackend MotionType.KINEMATIC = (true, s) := by
  have hdyn : s.setMotionType noBackend MotionType.DYNAMIC = (false, s) := by
    simp [RigidObject.setMotionType, hc, noBackend]
  refine ⟨hdyn, by rw [hdyn]; exact hm, ?_⟩
  have h2 : s.setMotionType noBackend MotionType.KINEMATIC =
      (true, { s with objectMotionType := MotionType.KINEMATIC }) := by
    simp [RigidObject.setMotionType, hc]
  rw [h2, motionTypeUpdateSelf s MotionType.KINEMATIC hm]

/-- Witness for C3 at a freshly initialized object body. -/
theorem object_dynamic_requires_backend_witness :
    objectSample.setMotionType noBackend MotionType.DYNAMIC =
      (false, objectSample) ∧
    (objectSample.setMotionType noBackend MotionType.DYNAMIC).2.objectMotionType =
      MotionType.KINEMATIC ∧
    objectSample.setMotionType noBackend MotionType.KINEMATIC =
      (true, objectSample) :=
  object_dynamic_requires_backend objectSample (by decide) (by decide)

/-- The backend-synchronized state recorded by the last syncPose call
agrees with the scene-visible transform. -/
def poseSynced (s : RigidObject) : Prop :=
  s.syncedPose = some (s.translation, s.rotation)

/-- C4: Every kinematic transform-mutating operation (setTransformation,
setTranslation, setRotation, translate, translateLocal, rotate,
rotateLocal and the six per-axis rotate variants) invokes the syncPose
hook before returning, so at return the scene-visible transform and the
backend-synchronized state agree. -/
theorem kinematic_mutations_sync_pose (aaq : ℚ → Vec3 → Quat)
    (s : RigidObject) (t v : Vec3) (r q : Quat) (angle : ℚ) (axis : Vec3) :
    poseSynced (s.setTransformation t r) ∧
    poseSynced (s.setTranslation v) ∧
    poseSynced (s.setRotation q) ∧
    poseSynced (s.translate v) ∧
    poseSynced (s.translateLocal v) ∧
    poseSynced (s.rotate aaq angle axis) ∧
    poseSynced (s.rotateLocal aaq angle axis) ∧
    poseSynced (s.rotateX aaq angle) ∧
    poseSynced (s.rotateY aaq angle) ∧
    poseSynced (s.rotateZ aaq angle) ∧
    poseSynced (s.rotateXLocal aaq angle) ∧
    poseSynced (s.rotateYLocal aaq angle) ∧
    poseSynced (s.rotateZLocal aaq angle) :=
  ⟨rfl, rfl, rfl, rfl, rfl, rfl, rfl, rfl, rfl, rfl, rfl, rfl, rfl⟩

/-- C5: For every dt and every pose, integrateTransform with
controllingLinVel false and controllingAngVel false returns a pose exactly
equal to the input pose, for every realization of the incremental-rotation
constructor. -/
theorem integrate_transform_identity (vc : VelocityControl)
    (angInc : Vec3 → ℚ → Quat) (dt : ℚ) (pose : Vec3 × Quat)
    (hl : vc.controllingLinVel = false) (ha : vc.controllingAngVel = false) :
    vc.integrateTransform angInc dt pose = pose := by
  simp [VelocityControl.integrateTransform, hl, ha]

def vcIdleSample : VelocityControl :=
  ⟨Vec3.unitX, Vec3.unitY, false, false, false, false⟩

def angIncSample : Vec3 → ℚ → Quat := fun _ _ => Quat.one

/-- Witness for C5 at a concrete controller with both flags cleared. -/
theorem integrate_transform_identity_witness :
    vcIdleSample.integrateTransform angIncSample 5 (Vec3.unitZ, Quat.one) =
      (Vec3.unitZ, Quat.one) :=
  integrate_transform_identity vcIdleSample angIncSample 5
    (Vec3.unitZ, Quat.one) rfl rfl

/-- C6: When controllingLinVel is true, linVelIsLocal is false and
controllingAngVel is false, integrateTransform adds exactly linVel * dt to
the translation of the pose and leaves the orientation unchanged. -/
theorem integrate_transform_world_linear (vc : VelocityControl)
    (angInc : Vec3 → ℚ → Quat) (dt : ℚ) (pose : Vec3 × Quat)
    (hl : vc.controllingLinVel = true) (hloc : vc.linVelIsLocal = false)
    (ha : vc.controllingAngVel = false) :
    vc.integrateTransform angInc dt pose =
      (pose.1 + Vec3.smul dt vc.linVel, pose.2) := by
  simp [VelocityControl.integrateTransform, hl, hloc, ha]

def vcLinSample : VelocityControl :=
  ⟨Vec3.unitX, Vec3.zero, true, false, false, false⟩

/-- Witness for C6: linVel = (1,0,0), dt = 1 and an identity input pose
give the pose translated by (1,0,0) with orientation unchanged. -/
theorem integrate_transform_world_linear_witness :
    vcLinSample.integrateTransform angIncSample 1 (Vec3.zero, Quat.one) =
      (Vec3.unitX, Quat.one) := by
  rw [integrate_transform_world_linear vcLinSample angIncSample 1
    (Vec3.zero, Quat.one) rfl rfl rfl]
  norm_num [vcLinSample, Vec3.smul, Vec3.add_def, Vec3.zero, Vec3.unitX]

/-- Bundle of every caller-visible observation of a base body: the
scene-visible transform, the velocity getters and all physical-property
accessors. -/
def RigidObject.observables (s : RigidObject) :
    (Vec3 × Quat) × (Vec3 × Vec3) × (ℚ × ℚ × ℚ × ℚ × ℚ) ×
      (Vec3 × Vec3 × Mat3) :=
  (s.getTransformation, (s.getLinearVelocity, s.getAngularVelocity),
   (s.getMass, s.getFrictionCoefficient, s.getRestitutionCoefficient,
    s.getLinearDamping, s.getAngularDamping),
   (s.getCOM, s.getInertiaVector, s.getInertiaMatrix))

/-- C7: On a base body with motion type STATIC or KINEMATIC, each of
applyForce, applyImpulse, applyTorque and applyImpulseTorque, with any
argument vectors, leaves the whole body state unchanged, hence the
transform, the velocities and every physical-property accessor result
unchanged, and signals no error (each call is a total function returning
normally). -/
theorem apply_ops_noop_base (s : RigidObject)
    (force relPosF impulse relPosI torque impulseTorque : Vec3)
    (_h : s.objectMotionType = MotionType.STATIC ∨
          s.objectMotionType = MotionType.KINEMATIC) :
    s.applyForce force relPosF = s ∧
    s.applyImpulse impulse relPosI = s ∧
    s.applyTorque torque = s ∧
    s.applyImpulseTorque impulseTorque = s ∧
    (s.applyForce force relPosF).observables = s.observables ∧
    (s.applyImpulse impulse relPosI).observables = s.observables ∧
    (s.applyTorque torque).observables = s.observables ∧
    (s.applyImpulseTorque impulseTorque).observables = s.observables :=
  ⟨rfl, rfl, rfl, rfl, rfl, rfl, rfl, rfl⟩

/-- Witness for C7 at a freshly initialized kinematic object body. -/
theorem apply_ops_noop_base_witness :
    objectSample.applyForce Vec3.unitX Vec3.unitY = objectSample ∧
    objectSample.applyImpulse Vec3.unitY Vec3.unitZ = objectSample ∧
    objectSample.applyTorque Vec3.unitZ = objectSample ∧
    objectSample.applyImpulseTorque Vec3.unitX = objectSample ∧
    (objectSample.applyForce Vec3.unitX Vec3.unitY).observables =
      objectSample.observables ∧
    (objectSample.applyImpulse Vec3.unitY Vec3.unitZ).observables =
      objectSample.observables ∧
    (objectSample.applyTorque Vec3.unitZ).observables =
      objectSample.observables ∧
    (objectSample.applyImpulseTorque Vec3.unitX).observables =
      objectSample.observables :=
  apply_ops_noop_base objectSample Vec3.unitX Vec3.unitY Vec3.unitY Vec3.unitZ
    Vec3.unitZ Vec3.unitX (Or.inr (by decide))

/-- C8: resetTransformation on a base body fails loudly: it reports an
observable failure (the explicit false result) and does not silently change
anything; and every fallible operation of the contract reports failure
through an explicit boolean result with no partial state change (each
operation is a total function, so no exception or panic is possible). -/
theorem reset_transformation_fails_loudly (s : RigidObject)
    (a1 a2 : PhysicsObjectAttributes) (m1 m2 : List CollisionMeshData)
    (f1 f2 : Bool) (caps : DynamicsBackendCaps) (mt : MotionType) :
    s.resetTransformation = (s, false) ∧
    ((s.initializeScene a1 m1 f1).1 = true ∨
      (s.initializeScene a1 m1 f1).2 = s) ∧
    ((s.initializeObject a2 m2 f2).1 = true ∨
      (s.initializeObject a2 m2 f2).2 = s) ∧
    ((s.setMotionType caps mt).1 = true ∨ (s.setMotionType caps mt).2 = s) := by
  refine ⟨rfl, ?_, ?_, ?_⟩
  · unfold RigidObject.initializeScene
    split
    · split
      · exact Or.inr rfl
      · split
        · exact Or.inl rfl
        · exact Or.inr rfl
    · exact Or.inr rfl
  · unfold RigidObject.initializeObject
    split
    · split
      · exact Or.inr rfl
      · split
        · exact Or.inl rfl
        · exact Or.inr rfl
    · exact Or.inr rfl
  · cases hrt : s.rigidObjectType <;> cases mt <;>
      simp [RigidObject.setMotionType, hrt] <;> split <;> simp

/-- Shifting the origin by the zero vector changes nothing. -/
theorem shiftOrigin_zero (s : RigidObject) :
    s.shiftOrigin Vec3.zero = s := by
  cases s with
  | mk omt rot ia tr ro sp cs bmin bmax =>
    simp [RigidObject.shiftOrigin, Vec3.add_zero_right]

/-- C9: shiftOriginToBBCenter computes the current bounding-box center c
and calls shiftOrigin on its negation; after one call the recomputed
bounding-box center is the origin, so a second call applies a zero shift
and is the identity on the already-recentered state. -/
theorem shift_origin_to_bb_center_idempotent (s : RigidObject) :
    s.shiftOriginToBBCenter = s.shiftOrigin s.bbCenter.neg ∧
    s.shiftOriginToBBCenter.bbCenter = Vec3.zero ∧
    s.shiftOriginToBBCenter.shiftOriginToBBCenter = s.shiftOriginToBBCenter := by
  have hzero : s.shiftOriginToBBCenter.bbCenter = Vec3.zero := by
    cases s with
    | mk omt rot ia tr ro sp cs bmin bmax =>
      cases bmin with
      | mk a1 a2 a3 =>
        cases bmax with
        | mk b1 b2 b3 =>
          simp only [RigidObject.shiftOriginToBBCenter, RigidObject.shiftOrigin,
            RigidObject.bbCenter, Vec3.smul, Vec3.neg, Vec3.add_def, Vec3.zero,
            Vec3.mk.injEq]
          refine ⟨by ring, by ring, by ring⟩
  refine ⟨rfl, hzero, ?_⟩
  show s.shiftOriginToBBCenter.shiftOrigin
      s.shiftOriginToBBCenter.bbCenter.neg = s.shiftOriginToBBCenter
  rw [hzero, Vec3.neg_zero_eq, shiftOrigin_zero]

/-- C10: On a body on which no initialization call has succeeded (the
initialization-attributes template pointer is null), getScale dereferences
the null template pointer (embedded as the result none) instead of
returning a safe default, unlike every other base property accessor, which
returns a safe zero default; once initializeObject succeeds, getScale
returns the scale stored in the template. -/
theorem get_scale_requires_initialization (s : RigidObject)
    (a : PhysicsObjectAttributes) (mg : List CollisionMeshData)
    (h : s.initializationAttributes = none)
    (hmg : mg.isEmpty = false)
    (hrt : s.rigidObjectType = RigidObjectType.NONE) :
    s.getScale = none ∧
    s.getMass = 0 ∧
    s.getFrictionCoefficient = 0 ∧
    s.getRestitutionCoefficient = 0 ∧
    s.getLinearDamping = 0 ∧
    s.getAngularDamping = 0 ∧
    s.getLinearVelocity = Vec3.zero ∧
    s.getAngularVelocity = Vec3.zero ∧
    s.getCOM = Vec3.zero ∧
    s.getInertiaVector = Vec3.zero ∧
    s.getInertiaMatrix = Mat3.zero ∧
    (s.initializeObject a mg true).1 = true ∧
    (s.initializeObject a mg true).2.getScale = some a.scale := by
  refine ⟨?_, rfl, rfl, rfl, rfl, rfl, rfl, rfl, rfl, rfl, rfl, ?_, ?_⟩
  · simp [RigidObject.getScale, h]
  · simp [RigidObject.initializeObject, hrt, hmg]
  · simp [RigidObject.initializeObject, hrt, hmg, RigidObject.getScale,
      PhysicsObjectAttributes.getScale]

/-- Witness for C10 at a freshly constructed body. -/
theorem get_scale_requires_initialization_witness :
    freshSample.getScale = none ∧
    freshSample.getMass = 0 ∧
    freshSample.getFrictionCoefficient = 0 ∧
    freshSample.getRestitutionCoefficient = 0 ∧
    freshSample.getLinearDamping = 0 ∧
    freshSample.getAngularDamping = 0 ∧
    freshSample.getLinearVelocity = Vec3.zero ∧
    freshSample.getAngularVelocity = Vec3.zero ∧
    freshSample.getCOM = Vec3.zero ∧
    freshSample.getInertiaVector = Vec3.zero ∧
    freshSample.getInertiaMatrix = Mat3.zero ∧
    (freshSample.initializeObject attrsSample [meshSample] true).1 = true ∧
    (freshSample.initializeObject attrsSample [meshSample] true).2.getScale =
      some attrsSample.scale :=
  get_scale_requires_initialization freshSample attrsSample [meshSample]
    rfl rfl rfl

end HabitatSim
